import Mathlib

/-!
Verification of the multi-provider image-generation engine
(`astrbot_plugin_gemini_image_generation`).

This file gives a shallow embedding, in Lean 4, of the parts of the source
that the specification's claims are about:

* `src/tl/tl_api.py` — the `GeminiAPIClient` retry loop, its error
  classifier (`_is_retryable_error`, `_classify_error`) and the request
  payload builders (`_prepare_google_payload`, `_prepare_openrouter_payload`);
* `src/tl/key_manager.py` — `KeyManager` (daily quota reset, key scan with
  pre-deduction, key rotation);
* `src/tl/rate_limiter.py` — `RateLimiter.check_and_consume` (rule matching,
  sliding window, retry-after computation);
* `src/tl/api/registry.py` — provider-identifier normalization and dispatch;
* `src/tl/api/{doubao,glm,whatai}.py` — the adapters' `parse_response`.

Machine integers are modelled as `Nat`/`Int`; Python `time.time()` floats are
modelled as `ℚ`; fallible code returns `Except`/sum types; external
collaborators (HTTP transport, file saving, image download) are passed in as
function parameters.  Asynchronous state (locks, KV persistence) is modelled
by explicit state passing; the claims are about sequential executions inside
the critical sections, which those locks guarantee.
-/

/-! ## Python string primitives used by the source -/

/-- Model of Python `str.startswith` on explicit character lists. -/
def charsStartWith : List Char → List Char → Bool
  | [], _ => true
  | _ :: _, [] => false
  | p :: ps, c :: cs => p == c && charsStartWith ps cs

/-- Model of Python `in` (substring containment) on character lists. -/
def charsContain (pat : List Char) : List Char → Bool
  | [] => pat.isEmpty
  | c :: cs => charsStartWith pat (c :: cs) || charsContain pat cs

/-- Python `needle in haystack` for strings. -/
def strContainsSub (haystack needle : String) : Bool :=
  charsContain needle.toList haystack.toList

/-- Python `str.startswith` for strings. -/
def strStartsWith (s pat : String) : Bool :=
  charsStartWith pat.toList s.toList

/-- Python `str.lower` (ASCII behaviour, which is all the source uses). -/
def strLower (s : String) : String :=
  ⟨s.toList.map Char.toLower⟩

/-- Helper for `strReplaceAll`: character-list replacement of every
occurrence of `pat` (assumed nonempty) by `rep`, scanning left to right as
Python `str.replace` does.  The structural `fuel` counter (initialised to
the list length, consumed one unit per examined character, so it never runs
out for a nonempty `pat`) keeps the recursion kernel-reducible. -/
def charsReplaceGo (pat rep : List Char) : Nat → List Char → List Char
  | 0, l => l
  | _ + 1, [] => []
  | fuel + 1, c :: cs =>
    if charsStartWith pat (c :: cs) then
      rep ++ charsReplaceGo pat rep fuel (List.drop (pat.length - 1) cs)
    else
      c :: charsReplaceGo pat rep fuel cs

/-- Python `str.replace(pat, rep)` (replaces every occurrence; the source
only ever replaces the nonempty patterns `"-"` and `"data:"`). -/
def strReplaceAll (s pat rep : String) : String :=
  if pat.toList.isEmpty then s
  else ⟨charsReplaceGo pat.toList rep.toList s.toList.length s.toList⟩

/-- Helper for `splitOnceAfter`: split a character list at the first
occurrence of `sep`, returning the part before and the part after the
separator. `none` when `sep` does not occur. -/
def charsSplitOnce (sep : List Char) : List Char → Option (List Char × List Char)
  | [] => if sep.isEmpty then some ([], []) else none
  | c :: cs =>
    if charsStartWith sep (c :: cs) then
      some ([], List.drop (sep.length - 1) cs)
    else
      match charsSplitOnce sep cs with
      | some (l, r) => some (c :: l, r)
      | none => none

/-- Python `s.split(sep, 1)` restricted to the case the source uses: the two
pieces around the first occurrence of `sep` (`none` if absent). -/
def splitOnceAfter (s sep : String) : Option (String × String) :=
  match charsSplitOnce sep.toList s.toList with
  | some (l, r) => some (⟨l⟩, ⟨r⟩)
  | none => none

/-- Python `int()` truncation toward zero on a rational. -/
def pyIntTrunc (q : ℚ) : ℤ :=
  if q < 0 then -⌊-q⌋ else ⌊q⌋

/-! ## `src/tl/tl_api.py` — `GeminiAPIClient`

The retry loop `_make_request`, its classifier helpers and the payload
builders. -/

namespace TlApi

/-- `APIError` of `src/tl/tl_api.py` (message, optional HTTP status code,
optional error type). -/
structure APIError where
  message : String
  status_code : Option Nat
  error_type : Option String
  deriving Repr, DecidableEq

/-- The data of a caught Python exception that `_make_request` inspects:
its message (`str(e)`), whether it is an `asyncio.TimeoutError`, whether it
is an `aiohttp.ClientError`, and its `status` attribute if it has one
(note: the `APIError` class itself carries `status_code`, not `status`). -/
structure ExcInfo where
  msg : String
  isTimeoutError : Bool
  isClientError : Bool
  statusAttr : Option Nat
  deriving Repr, DecidableEq

/-- `GeminiAPIClient._classify_error`. -/
def classify_error (e : ExcInfo) : String :=
  if e.isTimeoutError then "timeout"
  else if strContainsSub (strLower e.msg) "timeout" then "timeout"
  else if strContainsSub (strLower e.msg) "connection" then "network"
  else if e.isClientError then "network"
  else "unknown"

/-- `GeminiAPIClient._is_retryable_error`.  The second argument is the
exception's `status` attribute (`none` when `hasattr(exception, "status")`
is false). -/
def is_retryable_error (error_type : String) (statusAttr : Option Nat) : Bool :=
  if error_type = "timeout" ∨ error_type = "network" then true
  else
    match statusAttr with
    | some status =>
      if status ∈ [408, 500, 502, 503, 504] then true
      else if status ∈ [401, 402, 403, 422, 429] then false
      else true
    | none => true

/-- Result triple of a successful generation:
`(image_url, image_path, text_content)`. -/
abbrev GenResult := Option String × Option String × Option String

/-- One attempt of the loop body of `_make_request` (the `await` of
`_perform_request` under `asyncio.wait_for`): it either returns a result,
raises some exception, or is cancelled by the framework
(`asyncio.CancelledError`). -/
inductive AttemptResult where
  | ok (r : GenResult)
  | exc (e : ExcInfo)
  | cancelled
  deriving Repr, DecidableEq

/-- The message `_make_request` attaches to a framework cancellation. -/
def cancelMsg : String :=
  "图像生成时间过长，超出了框架限制。请尝试简化图像描述或在框架配置中增加 tool_call_timeout 到 90-120 秒。"

/-- Epilogue of `_make_request`: after the `while` loop, re-raise the last
recorded error if any, otherwise return `(None, None, None)`. -/
def finishLoop (last_error : Option APIError) : Except APIError GenResult :=
  match last_error with
  | some e => Except.error e
  | none => Except.ok (none, none, none)

/-- Loop body of `GeminiAPIClient._make_request`, with the attempt outcomes
supplied as a function `attempts` (attempt number ↦ outcome).  `fuel` is the
number of remaining loop iterations (`max_retries - current_retry`), which
makes the Python `while current_retry < max_retries` loop structurally
recursive.  Besides the `Except` outcome it returns the list of backoff
delays (`min(2 ** (current_retry + 1), 10)` seconds) slept between
attempts, in order. -/
def makeRequestGo (attempts : Nat → AttemptResult) (max_retries : Nat) :
    Nat → Nat → Option APIError → List Nat → Except APIError GenResult × List Nat
  | 0, _, last_error, delays => (finishLoop last_error, delays)
  | fuel + 1, current_retry, _, delays =>
    match attempts current_retry with
    | AttemptResult.ok r => (Except.ok r, delays)
    | AttemptResult.cancelled =>
      (Except.error ⟨cancelMsg, none, some "cancelled"⟩, delays)
    | AttemptResult.exc e =>
      let error_type := classify_error e
      if is_retryable_error error_type e.statusAttr then
        let last_error := some (APIError.mk e.msg none (some error_type))
        if current_retry + 1 < max_retries then
          makeRequestGo attempts max_retries fuel (current_retry + 1) last_error
            (delays ++ [min (2 ^ (current_retry + 2)) 10])
        else
          (finishLoop last_error, delays)
      else
        (Except.error ⟨e.msg, none, some error_type⟩, delays)

/-- `GeminiAPIClient._make_request` (attempt loop entry point). -/
def make_request (attempts : Nat → AttemptResult) (max_retries : Nat) :
    Except APIError GenResult × List Nat :=
  makeRequestGo attempts max_retries max_retries 0 none []

/-- One part of a Google `generateContent` payload: the leading prompt text
or an inline reference image. -/
inductive GPart where
  | text (s : String)
  | inlineData (mimeType data : String)
  deriving Repr, DecidableEq

/-- Reference-image normalization inside `_prepare_google_payload`:
prepend a `data:image/png;base64,` header when missing, then split the data
URI into MIME type and payload. -/
def googleRefPart (base64_image : String) : GPart :=
  let b :=
    if strStartsWith base64_image "data:image/" then base64_image
    else "data:image/png;base64," ++ base64_image
  match splitOnceAfter b ";base64," with
  | some (header, data) => GPart.inlineData (strReplaceAll header "data:" "") data
  | none => GPart.inlineData "image/png" b

/-- The `parts` list built by `GeminiAPIClient._prepare_google_payload`:
the prompt text followed by the first 14 reference images
(`config.reference_images[:14]`). -/
def prepare_google_parts (prompt : String) (reference_images : List String) :
    List GPart :=
  GPart.text prompt :: (reference_images.take 14).map googleRefPart

/-- One content entry of an OpenRouter chat message. -/
inductive OrPart where
  | text (s : String)
  | image_url (url : String)
  deriving Repr, DecidableEq

/-- Reference-image normalization inside `_prepare_openrouter_payload`. -/
def openrouterRefPart (base64_image : String) : OrPart :=
  OrPart.image_url
    (if strStartsWith base64_image "data:image/" then base64_image
     else "data:image/png;base64," ++ base64_image)

/-- The `message_content` list built by
`GeminiAPIClient._prepare_openrouter_payload`: the prompt text followed by
the first 6 reference images (`config.reference_images[:6]`). -/
def prepare_openrouter_content (prompt : String) (reference_images : List String) :
    List OrPart :=
  OrPart.text ("Generate an image: " ++ prompt)
    :: (reference_images.take 6).map openrouterRefPart

end TlApi

/-! ## `src/tl/tl_api.py` — the error recorded per attempt -/

/-- The per-attempt `APIError` that `_make_request` records for a caught
retryable exception `e` (`last_error = APIError(error_msg, None,
error_type)`). -/
def TlApi.recordedError (e : TlApi.ExcInfo) : TlApi.APIError :=
  ⟨e.msg, none, some (TlApi.classify_error e)⟩

/-! ## `src/tl/key_manager.py` — `KeyManager`

State passing replaces the in-place mutation of `KeyUsageRecord` objects and
the `ProviderKeyManager` dataclass; the `asyncio.Lock` serializes the calls
we model sequentially.  Today's date (`time.strftime("%Y-%m-%d", ...)`) is a
parameter. -/

namespace KeyM

/-- `KeyUsageRecord` dataclass. -/
structure KeyUsageRecord where
  key : String
  usage_count : Nat := 0
  last_reset_date : String := ""
  is_exhausted : Bool := false
  deriving Repr, DecidableEq

/-- `ProviderKeyManager` dataclass.  The Python `key_records` dict is an
association list (insertion order preserved, one binding per key). -/
structure ProviderKeyManager where
  api_keys : List String := []
  daily_limit_per_key : Int := 0
  current_index : Nat := 0
  key_records : List (String × KeyUsageRecord) := []
  deriving Repr, DecidableEq

/-- `dict.get` on the `key_records` association list. -/
def lookupRecord (records : List (String × KeyUsageRecord)) (key : String) :
    Option KeyUsageRecord :=
  match records.find? (fun kv => kv.1 == key) with
  | some kv => some kv.2
  | none => none

/-- In-place mutation of the record bound to `key` (first binding). -/
def updateRecord (records : List (String × KeyUsageRecord)) (key : String)
    (r : KeyUsageRecord) : List (String × KeyUsageRecord) :=
  match records with
  | [] => []
  | kv :: rest =>
    if kv.1 == key then (key, r) :: rest
    else kv :: updateRecord rest key r

/-- `KeyManager._reset_if_new_day`: reset the usage counter (and the
exhausted flag) the first time the record is touched on a date different
from its stored `last_reset_date`. -/
def reset_if_new_day (today : String) (record : KeyUsageRecord) : KeyUsageRecord :=
  if record.last_reset_date ≠ today then
    { record with usage_count := 0, last_reset_date := today, is_exhausted := false }
  else record

/-- The `while checked_count < len(api_keys)` scan of
`KeyManager.get_available_key`: starting at `start_index + checked`, find
the first key with remaining quota, resetting stale records along the way
(Python mutates the record in place even when the key is then skipped).  On
success it returns the key together with its index (the new
`current_index`) and pre-deducts one quota unit.  `fuel` is
`len(api_keys) - checked`. -/
def scanForKey (today : String) (limit : Int) (api_keys : List String)
    (start_index : Nat) :
    Nat → Nat → List (String × KeyUsageRecord) →
    Option (String × Nat) × List (String × KeyUsageRecord)
  | 0, _, records => (none, records)
  | fuel + 1, checked, records =>
    let idx := (start_index + checked) % api_keys.length
    let key := api_keys.getD idx ""
    match lookupRecord records key with
    | none => scanForKey today limit api_keys start_index fuel (checked + 1) records
    | some record =>
      let record := reset_if_new_day today record
      if (record.usage_count : Int) < limit then
        let record := { record with
          usage_count := record.usage_count + 1,
          is_exhausted := decide (limit ≤ (record.usage_count : Int) + 1) }
        (some (key, idx), updateRecord records key record)
      else
        scanForKey today limit api_keys start_index fuel (checked + 1)
          (updateRecord records key record)

/-- `KeyManager.get_available_key` for one provider pool (the
`api_type`-indexed dict lookup, the KV load and the lock are outside the
modelled state).  Returns the acquired key (or `none` when every key is
exhausted) and the updated pool. -/
def get_available_key (today : String) (p : ProviderKeyManager) :
    Option String × ProviderKeyManager :=
  if p.api_keys.isEmpty then (none, p)
  else if p.daily_limit_per_key ≤ 0 then
    (some (p.api_keys.getD (p.current_index % p.api_keys.length) ""), p)
  else
    match scanForKey today p.daily_limit_per_key p.api_keys p.current_index
        p.api_keys.length 0 p.key_records with
    | (some (key, idx), records) =>
      (some key, { p with current_index := idx, key_records := records })
    | (none, records) => (none, { p with key_records := records })

/-- `KeyManager.rotate_key` for one provider pool: with at most one key the
pool is left untouched and the sole key (or `None`) is returned; otherwise
the rotation index advances by one modulo the pool size and
`get_available_key` runs on the result. -/
def rotate_key (today : String) (p : ProviderKeyManager) :
    Option String × ProviderKeyManager :=
  if p.api_keys.length ≤ 1 then (p.api_keys.head?, p)
  else
    get_available_key today
      { p with current_index := (p.current_index + 1) % p.api_keys.length }

/-- Iterate `get_available_key` `n` times, collecting the returned keys in
order. -/
def acquireTrace (today : String) (p : ProviderKeyManager) :
    Nat → List (Option String) × ProviderKeyManager
  | 0 => ([], p)
  | n + 1 =>
    let (k, p') := get_available_key today p
    let (ks, p'') := acquireTrace today p' n
    (k :: ks, p'')

/-- Fresh pool with keys `k1 k2 k3`, quota 2 per key per day, as
`ProviderKeyManager.__post_init__` builds it. -/
def threeKeyPool : ProviderKeyManager :=
  { api_keys := ["k1", "k2", "k3"],
    daily_limit_per_key := 2,
    current_index := 0,
    key_records :=
      [("k1", { key := "k1" }), ("k2", { key := "k2" }), ("k3", { key := "k3" })] }

end KeyM

/-- Fresh pool with keys `a b`, quota 1 per key per day. -/
def KeyM.twoKeyPool : KeyM.ProviderKeyManager :=
  { api_keys := ["a", "b"],
    daily_limit_per_key := 1,
    current_index := 0,
    key_records := [("a", { key := "a" }), ("b", { key := "b" })] }

/-! ## `src/tl/rate_limiter.py` — `RateLimiter`

The buckets dict is explicit state; `time.time()` is the parameter `now`
(rationals model the wall-clock floats); KV persistence and the lock are
outside the modelled state. -/

namespace RateL

/-- One entry of `config.rate_limit_rules`, with the `dict.get` defaults the
source applies (`enabled` → `True`, `period_seconds` → 60, `max_requests`
→ 5). -/
structure RateLimitRule where
  enabled : Bool := true
  group_ids : List String := []
  period_seconds : ℚ := 60
  max_requests : Nat := 5
  rule_name : String := "自定义规则"
  deriving Repr, DecidableEq

/-- The configuration fields `check_and_consume` reads (the
`default_rate_limit` dict is flattened into the three `default_*` fields
with its `.get` defaults). -/
structure PluginConfigRL where
  group_limit_mode : String := "none"
  group_limit_list : List String := []
  rate_limit_rules : List RateLimitRule := []
  default_enabled : Bool := false
  default_period : ℚ := 60
  default_max : Nat := 5
  deriving Repr, DecidableEq

/-- `RateLimiter._find_matching_rule`: first enabled rule whose group set
is empty (wildcard) or contains the group. -/
def find_matching_rule (rules : List RateLimitRule) (group_id : String) :
    Option RateLimitRule :=
  rules.find? fun rule =>
    rule.enabled && (rule.group_ids.isEmpty || rule.group_ids.contains group_id)

/-- Outcome of one admission check: allowed; silently denied by the
black/white list (`(False, None)`); or denied by the window with the data
the source interpolates into its message (`period`, `max_requests`,
`retry_after`). -/
inductive RLDecision where
  | allow
  | denyListed
  | denyRate (period : ℚ) (max_requests : Nat) (retry_after : ℤ)
  deriving Repr, DecidableEq

/-- `self._rate_limit_buckets.get(group_id, [])`. -/
def bucketLookup (buckets : List (String × List ℚ)) (group_id : String) :
    List ℚ :=
  match buckets.find? (fun kv => kv.1 == group_id) with
  | some kv => kv.2
  | none => []

/-- `self._rate_limit_buckets[group_id] = bucket`. -/
def bucketStore (buckets : List (String × List ℚ)) (group_id : String)
    (bucket : List ℚ) : List (String × List ℚ) :=
  match buckets with
  | [] => [(group_id, bucket)]
  | kv :: rest =>
    if kv.1 == group_id then (group_id, bucket) :: rest
    else kv :: bucketStore rest group_id bucket

/-- Sliding-window core of `check_and_consume` once the governing
parameters are fixed: prune entries older than `now - period`; deny with
the clamped truncated `retry_after` when the pruned bucket already holds
`max_requests` timestamps (Python indexes `bucket[0]` there, total only
for `max_requests ≥ 1`, modelled by `headD 0`), otherwise append `now`
and allow the request.  The (pruned or extended) bucket is stored back either way. -/
def applyWindow (enabled : Bool) (period : ℚ) (max_requests : Nat)
    (buckets : List (String × List ℚ)) (group_id : String) (now : ℚ) :
    RLDecision × List (String × List ℚ) :=
  if !enabled then (RLDecision.allow, buckets)
  else
    let window_start := now - period
    let bucket := (bucketLookup buckets group_id).filter
      (fun ts => window_start ≤ ts)
    if max_requests ≤ bucket.length then
      let earliest := bucket.headD 0
      let retry_after := pyIntTrunc (earliest + period - now)
      let retry_after := if retry_after < 0 then 0 else retry_after
      (RLDecision.denyRate period max_requests retry_after,
       bucketStore buckets group_id bucket)
    else
      (RLDecision.allow, bucketStore buckets group_id (bucket ++ [now]))

/-- `RateLimiter.check_and_consume`: no group id passes; the black/white
lists deny silently; then the first matching rule, else the default rule,
else unconditional admission; the winning (enabled) rule runs the
sliding-window core. -/
def check_and_consume (cfg : PluginConfigRL)
    (buckets : List (String × List ℚ)) (group_id : Option String) (now : ℚ) :
    RLDecision × List (String × List ℚ) :=
  match group_id with
  | none => (RLDecision.allow, buckets)
  | some gid =>
    if cfg.group_limit_mode = "whitelist" ∧ ¬ cfg.group_limit_list.isEmpty ∧
        ¬ cfg.group_limit_list.contains gid then
      (RLDecision.denyListed, buckets)
    else if cfg.group_limit_mode = "blacklist" ∧ ¬ cfg.group_limit_list.isEmpty ∧
        cfg.group_limit_list.contains gid then
      (RLDecision.denyListed, buckets)
    else
      match find_matching_rule cfg.rate_limit_rules gid with
      | some rule =>
        applyWindow rule.enabled rule.period_seconds rule.max_requests
          buckets gid now
      | none =>
        if cfg.default_enabled then
          applyWindow true cfg.default_period cfg.default_max buckets gid now
        else (RLDecision.allow, buckets)

/-- Iterate `check_and_consume` over a list of check instants, collecting
the decisions. -/
def checkTrace (cfg : PluginConfigRL) (group_id : Option String) :
    List ℚ → List (String × List ℚ) → List RLDecision × List (String × List ℚ)
  | [], buckets => ([], buckets)
  | t :: ts, buckets =>
    let step := check_and_consume cfg buckets group_id t
    let rest := checkTrace cfg group_id ts step.2
    (step.1 :: rest.1, rest.2)

/-- A configuration whose only governing rule has a 60-second window and a
maximum of 5 requests (wildcard group match). -/
def windowCfg : PluginConfigRL :=
  { rate_limit_rules := [{ rule_name := "w60", enabled := true, group_ids := [],
                           period_seconds := 60, max_requests := 5 }] }

end RateL

/-! ## `src/tl/api/registry.py` — provider registry -/

/-- Python `str.strip()` (drop leading and trailing whitespace; the source
only ever strips ASCII identifiers). -/
def strStrip (s : String) : String :=
  ⟨((s.toList.dropWhile Char.isWhitespace).reverse.dropWhile
      Char.isWhitespace).reverse⟩

namespace Registry

/-- The adapter singletons the registry dispatches to. -/
inductive ProviderKind where
  | doubao
  | zai
  | grok2api
  | google
  | openai
  deriving Repr, DecidableEq

/-- `DOUBAO_API_TYPES`: the Doubao/Volcengine Ark aliases. -/
def DOUBAO_API_TYPES : List String :=
  ["doubao", "volcengine", "ark", "seedream"]

/-- `normalize_api_type`: `(api_type or "").strip().lower().replace("-", "_")`. -/
def normalize_api_type (api_type : Option String) : String :=
  strReplaceAll (strLower (strStrip (api_type.getD ""))) "-" "_"

/-- `is_doubao_api_type`. -/
def is_doubao_api_type (api_type : Option String) : Bool :=
  DOUBAO_API_TYPES.contains (normalize_api_type api_type)

/-- `get_api_provider`: alias dispatch with the generic OpenAI-compatible
adapter as the fall-through. -/
def get_api_provider (api_type : Option String) : ProviderKind :=
  let normalized := normalize_api_type api_type
  if DOUBAO_API_TYPES.contains normalized then ProviderKind.doubao
  else if normalized = "zai" ∨ strStartsWith normalized "zai_" then
    ProviderKind.zai
  else if normalized ∈ ["grok2api", "grok2_api"] ∨
      strStartsWith normalized "grok2api_" then
    ProviderKind.grok2api
  else if normalized ∈ ["google", "gemini", "googlegenai", "google_genai"] then
    ProviderKind.google
  else ProviderKind.openai

end Registry

/-! ## `src/tl/api/` — shared adapter error type -/

namespace ApiTypes

/-- Modelled from the spec: the `APIError` class of `src/tl/api_types.py`
(that file is absent from `src/`; the spec describes the carrier as
"ApiError: {human-readable message, HTTP status if any, vendor error code,
vendor error category, retryable: bool}").  Constructor order and defaults
reconstructed from the adapters' call sites
(`APIError(message, status_code, error_type, error_code, retryable=…)`,
most arguments optional). -/
structure APIError where
  message : String
  status_code : Option Nat := none
  error_type : Option String := none
  error_code : Option String := none
  retryable : Bool := false
  deriving Repr, DecidableEq

end ApiTypes

/-! ## `src/tl/api/doubao.py` — reference-image preparation -/

namespace Doubao

/-- External collaborators of `_process_single_image`:
`client._normalize_image_input` (defined outside `src/`; `none` models the
call raising, which the source catches into `(None, None)`) and the two
`base64.b64decode` validation passes (strict / lenient). -/
structure ImageEnv where
  clientNormalize : String → Option (Option String × Option String)
  b64ValidStrict : String → Bool
  b64ValidLoose : String → Bool

/-- A character allowed by the `^[A-Za-z0-9+/=_-]+$` regex of
`_looks_like_base64`. -/
def b64Char (c : Char) : Bool :=
  (decide ('A' ≤ c) && decide (c ≤ 'Z')) ||
  (decide ('a' ≤ c) && decide (c ≤ 'z')) ||
  (decide ('0' ≤ c) && decide (c ≤ '9')) ||
  (c == '+') || (c == '/') || (c == '=') || (c == '_') || (c == '-')

/-- `DoubaoProvider._looks_like_base64`. -/
def _looks_like_base64 (value : String) : Bool :=
  let v := strStrip value
  if v.toList.isEmpty then false
  else if v.toList.length < 64 then false
  else if strStartsWith v "http://" || strStartsWith v "https://" then false
  else
    -- `"".join(v.split())` removes every whitespace character before the
    -- regex test
    let v := v.toList.filter (fun c => !c.isWhitespace)
    !v.isEmpty && v.all b64Char

/-- `DoubaoProvider._strip_data_uri_` + `prefix` (renamed here to `head`). -/
def _strip_data_uri_head (value : String) : String :=
  let cleaned := strStrip value
  match splitOnceAfter cleaned ";base64," with
  | some (_, r) => strStrip r
  | none => cleaned

/-- `DoubaoProvider._format_base64_data_uri`. -/
def _format_base64_data_uri (b64_data : String) (mime_type : Option String) :
    String :=
  let cleaned := strStrip b64_data
  if strStartsWith cleaned "data:image/" then cleaned
  else
    let mime := match mime_type with
      | none => "image/png"
      | some m => m
    "data:" ++ mime ++ ";base64," ++ cleaned

/-- Python truthiness of the `b64_data` returned by
`client._normalize_image_input` (`None` or the empty string are falsy). -/
def b64Falsy (o : Option String) : Bool :=
  match o with
  | none => true
  | some s => s.toList.isEmpty

/-- `DoubaoProvider._process_single_image`: URL passthrough, data-URI
passthrough, bare-base64 repair, then the client-normalization fallback
with its `invalid_reference_image` failures under `force_b64`. -/
def _process_single_image (env : ImageEnv) (force_b64 : Bool)
    (image_str : String) : Except ApiTypes.APIError (Option String) :=
  if image_str.toList.isEmpty then Except.ok none
  else if (strStartsWith image_str "http://" ||
      strStartsWith image_str "https://") && !force_b64 then
    Except.ok (some image_str)
  else if strStartsWith image_str "data:image/" &&
      strContainsSub image_str ";base64," then
    Except.ok (some image_str)
  else if _looks_like_base64 image_str && !strStartsWith image_str "data:" then
    Except.ok (some (_format_base64_data_uri
      (strReplaceAll (_strip_data_uri_head image_str) "\n" "") none))
  else
    match env.clientNormalize image_str with
    | none =>
      -- the call raised; the source caught it into `(None, None)`
      if force_b64 then
        Except.error { message := "参考图转换失败（doubao/i2i），请检查图片来源后重试。",
                       error_type := some "invalid_reference_image" }
      else if strStartsWith image_str "http://" ||
          strStartsWith image_str "https://" then
        Except.ok (some image_str)
      else Except.ok none
    | some (mime_type, b64_data) =>
      if b64Falsy b64_data then
        if force_b64 then
          Except.error { message := "参考图转换失败（doubao/i2i），请检查图片来源后重试。",
                         error_type := some "invalid_reference_image" }
        else if strStartsWith image_str "http://" ||
            strStartsWith image_str "https://" then
          Except.ok (some image_str)
        else Except.ok none
      else
        let cleaned := strReplaceAll
          (_strip_data_uri_head (b64_data.getD "")) "\n" ""
        if !env.b64ValidStrict cleaned && !env.b64ValidLoose cleaned &&
            force_b64 then
          Except.error { message := "参考图 base64 校验失败（doubao/i2i），请更换图片后重试。",
                         error_type := some "invalid_reference_image" }
        else
          Except.ok (some (_format_base64_data_uri cleaned mime_type))

/-- The `for image_input in image_inputs[:14]` loop body of
`_process_reference_images` (blank inputs skipped, `None` results
skipped). -/
def processRefs (env : ImageEnv) (force_b64 : Bool) :
    List String → Except ApiTypes.APIError (List String)
  | [] => Except.ok []
  | x :: xs =>
    let image_str := strStrip x
    if image_str.toList.isEmpty then processRefs env force_b64 xs
    else do
      let r ← _process_single_image env force_b64 image_str
      let rest ← processRefs env force_b64 xs
      pure (match r with
        | some v => v :: rest
        | none => rest)

/-- `DoubaoProvider._process_reference_images`: cap the inputs at 14, skip
blanks and failures, return a single string for one processed image, an
array for several, `None` for none. -/
def _process_reference_images (env : ImageEnv) (force_b64 : Bool)
    (image_inputs : List String) :
    Except ApiTypes.APIError (Option (String ⊕ List String)) :=
  if image_inputs.isEmpty then Except.ok none
  else do
    let processed ← processRefs env force_b64 (image_inputs.take 14)
    match processed with
    | [] => pure none
    | [v] => pure (some (Sum.inl v))
    | v1 :: v2 :: rest => pure (some (Sum.inr (v1 :: v2 :: rest)))

end Doubao

/-- A pool of 15 clean URL reference images, one more than the largest cap. -/
def urls15 : List String :=
  ["http://r1", "http://r2", "http://r3", "http://r4", "http://r5",
   "http://r6", "http://r7", "http://r8", "http://r9", "http://r10",
   "http://r11", "http://r12", "http://r13", "http://r14", "http://r15"]

/-! ## JSON model for the adapters' `parse_response` -/

/-- The JSON values the vendors' response bodies are parsed into
(Python `json.loads` output: `None`/`bool`/number/`str`/`list`/`dict`). -/
inductive Json where
  | null
  | bool (b : Bool)
  | num (n : Int)
  | str (s : String)
  | arr (items : List Json)
  | obj (fields : List (String × Json))

/-- `dict.get(k)` on a JSON object's field list (first binding wins). -/
def jlookup (fields : List (String × Json)) (k : String) : Option Json :=
  match fields.find? (fun kv => kv.1 == k) with
  | some kv => some kv.2
  | none => none

/-- Python truthiness of a JSON value (`None`, `False`, `0`, `""`, `[]`
and the empty dict are falsy). -/
def jtruthy : Json → Bool
  | Json.null => false
  | Json.bool b => b
  | Json.num n => !(n == 0)
  | Json.str s => !s.toList.isEmpty
  | Json.arr items => !items.isEmpty
  | Json.obj fields => !fields.isEmpty

/-- Python `str(s)[:n]`. -/
def strTake (s : String) (n : Nat) : String :=
  ⟨s.toList.take n⟩

mutual

/-- Approximate model of Python `str()` on a JSON value, used only to build
error-message text in branches no claim inspects (dict/list rendering and
quoting are only sketched; opening and closing braces are built from
character codes). -/
def pyStrApprox : Json → String
  | Json.null => "None"
  | Json.bool true => "True"
  | Json.bool false => "False"
  | Json.num n => toString n
  | Json.str s => s
  | Json.arr items => "[" ++ pyStrApproxList items ++ "]"
  | Json.obj fields =>
    String.singleton (Char.ofNat 123) ++ pyStrApproxFields fields ++
      String.singleton (Char.ofNat 125)

/-- Comma-joined rendering of a JSON array's items. -/
def pyStrApproxList : List Json → String
  | [] => ""
  | [x] => pyStrApprox x
  | x :: xs => pyStrApprox x ++ ", " ++ pyStrApproxList xs

/-- Comma-joined rendering of a JSON object's fields. -/
def pyStrApproxFields : List (String × Json) → String
  | [] => ""
  | [(k, v)] => k ++ ": " ++ pyStrApprox v
  | (k, v) :: xs => k ++ ": " ++ pyStrApprox v ++ ", " ++ pyStrApproxFields xs

end

/-- What an adapter's `parse_response` does: return the
`(image_urls, image_paths, text_content, finish/thought)` quadruple, raise
an `APIError`, or crash with an uncaught Python exception (`AttributeError`
from `.get` on a non-dict, `TypeError` from indexing a non-dict item —
these corners, unreachable from the claims, are modelled coarsely). -/
inductive ParseOutcome where
  | ok (image_urls : List Json) (image_paths : List String)
      (text_content : Option Json) (finish_reason : Option Json)
  | apiError (e : ApiTypes.APIError)
  | pythonError (name : String)

/-! ## `src/tl/api/glm.py` and `src/tl/api/whatai.py` — `parse_response`

The two adapters' `data`-array loops are character-identical (URL entries
appended and downloaded, `b64_json` entries saved, download/save failures
caught and skipped), so one embedding serves both.  `download` models
`client._download_image` (the returned local path, `none` when it fails or
raises — the source catches and skips) and `saveB64` models
`save_base64_image` likewise. -/

/-- Contribution of one `data` item to `(image_urls, image_paths)` in the
glm/whatai loop.  Non-object items are modelled as a crash wherever the
Python `item["url"]` indexing would raise. -/
def dataItemContrib (download : String → Option String)
    (saveB64 : String → Option String) (item : Json) :
    Except String (List Json × List String) :=
  match item with
  | Json.obj fields =>
    match jlookup fields "url" with
    | some urlv =>
      if jtruthy urlv then
        match urlv with
        | Json.str u =>
          Except.ok ([urlv],
            match download u with
            | some p => [p]
            | none => [])
        | _ =>
          -- the url value is appended as-is; the download call raises and
          -- is caught
          Except.ok ([urlv], [])
      else Except.ok ([], [])
    | none =>
      match jlookup fields "b64_json" with
      | some bv =>
        if jtruthy bv then
          match bv with
          | Json.str b =>
            Except.ok ([],
              match saveB64 b with
              | some p => [p]
              | none => [])
          | _ =>
            -- `save_base64_image` raises on a non-string and is caught
            Except.ok ([], [])
        else Except.ok ([], [])
      | none => Except.ok ([], [])
  | Json.str s =>
    if strContainsSub s "url" || strContainsSub s "b64_json" then
      Except.error "TypeError"
    else Except.ok ([], [])
  | Json.arr items =>
    if items.any (fun j => match j with
        | Json.str s => s == "url" || s == "b64_json"
        | _ => false) then
      Except.error "TypeError"
    else Except.ok ([], [])
  | _ => Except.error "TypeError"

/-- The full `for idx, item in enumerate(data_list)` loop of the glm/whatai
`parse_response`. -/
def scanImageData (download : String → Option String)
    (saveB64 : String → Option String) :
    List Json → Except String (List Json × List String)
  | [] => Except.ok ([], [])
  | item :: rest => do
    let contrib ← dataItemContrib download saveB64 item
    let tail ← scanImageData download saveB64 rest
    pure (contrib.1 ++ tail.1, contrib.2 ++ tail.2)

/-- The `revised_prompt` probe on the first `data` entry shared by the two
adapters (only object entries are modelled; a non-object first entry can
raise in Python, unreachable from the claims). -/
def revisedPromptOf (items : List Json) : Option Json :=
  match items with
  | Json.obj ff :: _ => jlookup ff "revised_prompt"
  | _ => none

/-- Common body of `GLMProvider.parse_response` and
`WhatAIProvider.parse_response` after the error check: empty or missing
`data` returns the empty quadruple (no raise), otherwise the loop runs and
`revised_prompt` is probed. -/
def parseDataSection (download : String → Option String)
    (saveB64 : String → Option String) (rd : List (String × Json)) :
    ParseOutcome :=
  let data := (jlookup rd "data").getD (Json.arr [])
  if !jtruthy data then ParseOutcome.ok [] [] none none
  else
    match data with
    | Json.arr items =>
      match scanImageData download saveB64 items with
      | Except.error nm => ParseOutcome.pythonError nm
      | Except.ok (us, ps) =>
        ParseOutcome.ok us ps (revisedPromptOf items) none
    | _ => ParseOutcome.pythonError "TypeError"

/-- `GLMProvider.parse_response`.  A non-dict `error` value makes the
source call `.get` on it and crash with `AttributeError`. -/
def glm_parse_response (download : String → Option String)
    (saveB64 : String → Option String) (response_data : List (String × Json)) :
    ParseOutcome :=
  match jlookup response_data "error" with
  | some error_info =>
    match error_info with
    | Json.obj fields =>
      ParseOutcome.apiError
        { message := "GLM API 错误: " ++
            pyStrApprox ((jlookup fields "message").getD
              (Json.str (pyStrApprox error_info))) }
    | _ => ParseOutcome.pythonError "AttributeError"
  | none => parseDataSection download saveB64 response_data

/-- `WhatAIProvider.parse_response`.  Unlike GLM it stringifies a non-dict
`error` value instead of crashing. -/
def whatai_parse_response (download : String → Option String)
    (saveB64 : String → Option String) (response_data : List (String × Json)) :
    ParseOutcome :=
  match jlookup response_data "error" with
  | some error_info =>
    let error_msg :=
      match error_info with
      | Json.obj fields =>
        pyStrApprox ((jlookup fields "message").getD
          (Json.str (pyStrApprox error_info)))
      | _ => pyStrApprox error_info
    ParseOutcome.apiError { message := "WhatAI API 错误: " ++ error_msg }
  | none => parseDataSection download saveB64 response_data

/-! ## `src/tl/api/doubao.py` — `parse_response` and error classification -/

namespace Doubao

/-- `NON_RETRYABLE_ERRORS` (a Python set; the order is irrelevant for the
boolean tests it feeds). -/
def NON_RETRYABLE_ERRORS : List String :=
  ["MissingParameter",
   "InvalidParameter",
   "InvalidEndpoint.ClosedEndpoint",
   "InputTextRiskDetection",
   "InputImageRiskDetection",
   "OutputTextRiskDetection",
   "OutputImageRiskDetection",
   "SensitiveContentDetected",
   "SensitiveContentDetected.SevereViolation",
   "SensitiveContentDetected.Violence",
   "InputTextSensitiveContentDetected",
   "InputImageSensitiveContentDetected",
   "InputVideoSensitiveContentDetected",
   "OutputTextSensitiveContentDetected",
   "OutputImageSensitiveContentDetected",
   "OutputVideoSensitiveContentDetected",
   "InvalidImageURL.EmptyURL",
   "InvalidImageURL.InvalidFormat",
   "InvalidArgumentError.InvalidImageDetail",
   "InvalidArgumentError.InvalidPixelLimit",
   "AuthenticationError",
   "InvalidAccountStatus",
   "AccessDenied",
   "OperationDenied.PermissionDenied",
   "OperationDenied.ServiceNotOpen",
   "OperationDenied.ServiceOverdue",
   "AccountOverdueError",
   "InvalidEndpointOrModel.NotFound",
   "ModelNotOpen",
   "InvalidEndpointOrModel.ModelIDAccessDisabled",
   "InvalidSubscription",
   "UnsupportedModel"]

/-- `RETRYABLE_ERRORS`. -/
def RETRYABLE_ERRORS : List String :=
  ["RateLimitExceeded.EndpointRPMExceeded",
   "RateLimitExceeded.EndpointTPMExceeded",
   "ModelAccountRpmRateLimitExceeded",
   "ModelAccountTpmRateLimitExceeded",
   "APIAccountRpmRateLimitExceeded",
   "ModelAccountIpmRateLimitExceeded",
   "AccountRateLimitExceeded",
   "InflightBatchsizeExceeded",
   "QuotaExceeded",
   "SetLimitExceeded",
   "ServerOverloaded",
   "InternalServiceError",
   "ContentSecurityDetectionError"]

/-- `ERROR_MESSAGES` (a Python dict; insertion order governs the prefix
scan). -/
def ERROR_MESSAGES : List (String × String) :=
  [("MissingParameter", "请求缺少必要参数，请检查配置。"),
   ("InvalidParameter", "请求参数无效，请检查配置。"),
   ("InvalidEndpoint.ClosedEndpoint", "推理接入点已关闭或暂时不可用，请稍后重试。"),
   ("InputTextRiskDetection", "输入文本可能包含敏感信息，请修改后重试。"),
   ("InputImageRiskDetection", "输入图片可能包含敏感信息，请更换后重试。"),
   ("OutputTextRiskDetection", "生成的文字可能包含敏感信息，请修改输入后重试。"),
   ("OutputImageRiskDetection", "生成的图片可能包含敏感信息，请修改输入后重试。"),
   ("SensitiveContentDetected", "输入内容可能包含敏感信息，请使用其他提示词。"),
   ("SensitiveContentDetected.SevereViolation", "输入内容可能包含严重违规信息，请使用其他提示词。"),
   ("SensitiveContentDetected.Violence", "输入内容可能包含激进行为相关信息，请使用其他提示词。"),
   ("InputTextSensitiveContentDetected", "输入文本可能包含敏感信息，请修改后重试。"),
   ("InputImageSensitiveContentDetected", "输入图像可能包含敏感信息，请更换后重试。"),
   ("OutputTextSensitiveContentDetected", "生成的文字可能包含敏感信息，请修改输入后重试。"),
   ("OutputImageSensitiveContentDetected", "生成的图像可能包含敏感信息，请修改输入后重试。"),
   ("InvalidImageURL.EmptyURL", "图片 URL 为空，请提供有效的图片。"),
   ("InvalidImageURL.InvalidFormat", "图片格式无效或数据损坏，请更换图片。"),
   ("AuthenticationError", "API 密钥无效，请检查配置。"),
   ("InvalidAccountStatus", "账号状态异常，请联系管理员。"),
   ("AccessDenied", "没有访问权限，请检查权限设置。"),
   ("AccountOverdueError", "账号已欠费，请前往火山引擎费用中心充值。"),
   ("OperationDenied.ServiceNotOpen", "模型服务未开通，请前往火山方舟控制台开通。"),
   ("OperationDenied.ServiceOverdue", "账单已逾期，请前往火山费用中心充值。"),
   ("InvalidEndpointOrModel.NotFound", "模型或推理接入点不存在，请检查配置。"),
   ("ModelNotOpen", "模型服务未开通，请前往火山方舟控制台开通。"),
   ("RateLimitExceeded.EndpointRPMExceeded", "请求频率超限 (RPM)，请稍后重试。"),
   ("RateLimitExceeded.EndpointTPMExceeded", "Token 用量超限 (TPM)，请稍后重试。"),
   ("ModelAccountRpmRateLimitExceeded", "账户模型 RPM 限制已超出，请稍后重试。"),
   ("ModelAccountTpmRateLimitExceeded", "账户模型 TPM 限制已超出，请稍后重试。"),
   ("ModelAccountIpmRateLimitExceeded", "账户模型 IPM 限制已超出，请稍后重试。"),
   ("AccountRateLimitExceeded", "请求频率过高，请降低请求频率后重试。"),
   ("ServerOverloaded", "服务资源紧张，请稍后重试。"),
   ("QuotaExceeded", "配额已用尽，请稍后重试或联系管理员。"),
   ("InternalServiceError", "服务内部错误，请稍后重试。")]

/-- `DoubaoProvider._get_friendly_error_message`: exact match, then
first-prefix match in dict order, then the original message. -/
def _get_friendly_error_message (error_code original_message : String) :
    String :=
  match ERROR_MESSAGES.find? (fun kv => kv.1 == error_code) with
  | some kv => kv.2
  | none =>
    match ERROR_MESSAGES.find? (fun kv => strStartsWith error_code kv.1) with
    | some kv => kv.2
    | none => original_message

/-- `DoubaoProvider._is_retryable_error` (the adapter's own, error-code
based classifier — distinct from the orchestrator's). -/
def doubao_is_retryable_error (error_code : String)
    (http_status : Option Nat) : Bool :=
  if (match http_status with
      | some s => decide (500 ≤ s) && decide (s < 600)
      | none => false) then true
  else if http_status == some 429 then true
  else if RETRYABLE_ERRORS.contains error_code then true
  else if RETRYABLE_ERRORS.any (fun p => strStartsWith error_code p) then true
  else if NON_RETRYABLE_ERRORS.contains error_code then false
  else if NON_RETRYABLE_ERRORS.any (fun p => strStartsWith error_code p) then
    false
  else false

/-- `str(x or "")` for an optional JSON field (the `or` returns `""` for a
missing or falsy value). -/
def strOfFieldOrEmpty (v : Option Json) : String :=
  match v with
  | some j => if jtruthy j then pyStrApprox j else ""
  | none => ""

/-- `DoubaoProvider._build_api_error`. -/
def _build_api_error (error_code error_type error_message : String)
    (http_status : Option Nat) : ApiTypes.APIError :=
  { message := _get_friendly_error_message error_code error_message,
    status_code := http_status,
    error_type := some (if error_type.toList.isEmpty then "DoubaoError"
      else error_type),
    error_code := some error_code,
    retryable := doubao_is_retryable_error error_code http_status }

/-- The `b64_json` arm of the Doubao `data` loop body. -/
def doubaoItemB64 (saveB64 : String → Option String)
    (fields : List (String × Json)) : List Json × List String :=
  match jlookup fields "b64_json" with
  | some (Json.str b) =>
    if !b.toList.isEmpty then
      match saveB64 b with
      | some p => ([Json.str p], [p])
      | none => ([], [])
    else ([], [])
  | _ => ([], [])

/-- The `url` / `b64_json` extraction shared by both error-free arms of the
Doubao `data` loop body. -/
def doubaoItemImages (saveB64 : String → Option String)
    (fields : List (String × Json)) : List Json × List String :=
  match jlookup fields "url" with
  | some (Json.str u) =>
    if !u.toList.isEmpty then ([Json.str u], [])
    else doubaoItemB64 saveB64 fields
  | _ => doubaoItemB64 saveB64 fields

/-- Contribution of one Doubao `data` item: non-dict items and items whose
`error` is a dict with a truthy `message` are skipped; a nonempty string
`url` is recorded; otherwise a nonempty string `b64_json` is saved via
`saveB64` and, on success, the local path is recorded in both lists. -/
def doubaoItemContrib (saveB64 : String → Option String) (item : Json) :
    List Json × List String :=
  match item with
  | Json.obj fields =>
    match jlookup fields "error" with
    | some (Json.obj ef) =>
      if jtruthy ((jlookup ef "message").getD Json.null) then ([], [])
      else doubaoItemImages saveB64 fields
    | _ => doubaoItemImages saveB64 fields
  | _ => ([], [])

/-- The Doubao `data` loop. -/
def doubaoScanData (saveB64 : String → Option String) :
    List Json → List Json × List String
  | [] => ([], [])
  | item :: rest =>
    let contrib := doubaoItemContrib saveB64 item
    let tail := doubaoScanData saveB64 rest
    (contrib.1 ++ tail.1, contrib.2 ++ tail.2)

/-- Everything in `DoubaoProvider.parse_response` after the top-level error
branch: the `data` loop and the empty-result checks. -/
def doubaoDataSection (saveB64 : String → Option String)
    (rd : List (String × Json)) (http_status : Option Nat) : ParseOutcome :=
  let data := (jlookup rd "data").getD Json.null
  let scanned :=
    match (if jtruthy data then data else Json.arr []) with
    | Json.arr items => doubaoScanData saveB64 items
    | _ => ([], [])
  if scanned.1.isEmpty && scanned.2.isEmpty then
    let error_obj := jlookup rd "error"
    -- `error_obj is not None and not isinstance(error_obj, dict)`
    -- (a JSON `null` loads as Python `None`)
    match error_obj with
    | some (Json.obj ef) =>
      if !jtruthy ((jlookup ef "message").getD Json.null) then
        ParseOutcome.apiError
          { message := "豆包 API 返回了不完整的错误信息，请稍后重试。",
            status_code := http_status,
            error_type := some "IncompleteError",
            error_code := some "MissingErrorMessage",
            retryable := true }
      else
        -- truthy error message together with truthy `data` slipped past
        -- the top-level branch: the source returns the empty quadruple
        ParseOutcome.ok scanned.1 scanned.2 none none
    | some Json.null =>
      ParseOutcome.apiError
        { message := "豆包 API 返回了空响应，未生成图像也未返回错误信息。请稍后重试或检查请求参数。",
          status_code := http_status,
          error_type := some "EmptyResponse",
          error_code := some "NoDataReturned",
          retryable := true }
    | some e =>
      ParseOutcome.apiError
        { message := "豆包 API 返回了格式异常的错误信息：" ++
            strTake (pyStrApprox e) 100,
          status_code := http_status,
          error_type := some "MalformedError",
          error_code := some "InvalidErrorFormat",
          retryable := true }
    | none =>
      ParseOutcome.apiError
        { message := "豆包 API 返回了空响应，未生成图像也未返回错误信息。请稍后重试或检查请求参数。",
          status_code := http_status,
          error_type := some "EmptyResponse",
          error_code := some "NoDataReturned",
          retryable := true }
  else ParseOutcome.ok scanned.1 scanned.2 none none

/-- `DoubaoProvider.parse_response`. -/
def parse_response (saveB64 : String → Option String) (response_data : Json)
    (http_status : Option Nat) : ParseOutcome :=
  match response_data with
  | Json.obj rd =>
    let error_obj := jlookup rd "error"
    match error_obj with
    | some (Json.obj ef) =>
      if jtruthy ((jlookup ef "message").getD Json.null) &&
          !jtruthy ((jlookup rd "data").getD Json.null) then
        ParseOutcome.apiError (_build_api_error
          (strOfFieldOrEmpty (jlookup ef "code"))
          (strOfFieldOrEmpty (jlookup ef "type"))
          (strOfFieldOrEmpty (jlookup ef "message"))
          http_status)
      else doubaoDataSection saveB64 rd http_status
    | _ => doubaoDataSection saveB64 rd http_status
  | _ =>
    ParseOutcome.apiError
      { message := "豆包 API 返回了非预期格式的响应，请稍后重试。",
        status_code := http_status,
        error_type := some "MalformedResponse",
        error_code := some "InvalidResponseType",
        retryable := true }

end Doubao

/-!
Theorems: the claims C1–C10, in order, each preceded by the helper lemmas
its proof uses.
-/

/-! ## Claim C1 -/

/-- C1 (amended).  The generic classifier `_is_retryable_error` marks the
HTTP statuses 408/500/502/503/504 as retryable (whatever the classified
error type), and — whenever the classified error type is neither `timeout`
nor `network`, which short-circuit to retryable — marks 401/402/403/422
and also 429 as fatal (not retryable).  (The original claim placed 429 in
the retryable band; the source places it in the non-retryable list.) -/
theorem c1_status_bands (et : String) (s : Nat) :
    (s ∈ [408, 500, 502, 503, 504] → TlApi.is_retryable_error et (some s) = true) ∧
    (et ≠ "timeout" → et ≠ "network" → s ∈ [401, 402, 403, 422, 429] →
      TlApi.is_retryable_error et (some s) = false) := by
  constructor
  · intro hs
    unfold TlApi.is_retryable_error
    by_cases h : et = "timeout" ∨ et = "network"
    · simp [h]
    · simp only [h, if_false, if_neg]
      simp [hs]
  · intro ht hn hs
    unfold TlApi.is_retryable_error
    have h : ¬(et = "timeout" ∨ et = "network") := by
      rintro (h | h) <;> [exact ht h; exact hn h]
    simp only [h, if_false]
    simp only [List.mem_cons, List.not_mem_nil, or_false] at hs
    rcases hs with rfl | rfl | rfl | rfl | rfl <;> decide

/-- C1 witness: concrete instantiation — status 500 with type `unknown` is
retryable, status 429 with type `unknown` is fatal. -/
theorem c1_status_bands_witness :
    TlApi.is_retryable_error "unknown" (some 500) = true ∧
    TlApi.is_retryable_error "unknown" (some 429) = false := by
  refine ⟨(c1_status_bands "unknown" 500).1 (by decide), ?_⟩
  exact (c1_status_bands "unknown" 429).2 (by decide) (by decide) (by decide)

/-- C1 counterexample: the claim as stated says status 429 is retryable;
the source's `_is_retryable_error` returns `False` for it (429 sits in the
non-retryable list together with 401/402/403/422). -/
theorem c1_counterexample :
    TlApi.is_retryable_error "unknown" (some 429) = false := by
  decide

/-! ## Claim C3 -/

/-- C3 counterexample: with 3 keys of quota 2/day, the 7 sequential
`get_available_key` calls do not return the keys in round-robin order
(`k1, k2, k3, k1, k2, k3`, then `None`): the scan restarts at the current
rotation index, so the second call returns `k1` again. -/
theorem c3_counterexample :
    ¬ ((KeyM.acquireTrace "2026-10-12" KeyM.threeKeyPool 7).1 =
      [some "k1", some "k2", some "k3", some "k1", some "k2", some "k3", none]) := by
  decide

/-- C3 (amended).  With a pool of 3 keys and a daily quota of 2 per key,
7 sequential `get_available_key` calls on the same day return each key
twice in a row — `k1, k1, k2, k2, k3, k3` — exhausting it before advancing
(not strict round-robin), each call pre-deducting one quota unit (after one
call `k1` has count 1; after six calls every key has count 2 and is marked
exhausted), and the 7th call returns `None`. -/
theorem c3_acquire_trace :
    (KeyM.acquireTrace "2026-10-12" KeyM.threeKeyPool 7).1 =
      [some "k1", some "k1", some "k2", some "k2", some "k3", some "k3", none] ∧
    KeyM.lookupRecord
        (KeyM.acquireTrace "2026-10-12" KeyM.threeKeyPool 1).2.key_records "k1" =
      some { key := "k1", usage_count := 1, last_reset_date := "2026-10-12",
             is_exhausted := false } ∧
    (KeyM.acquireTrace "2026-10-12" KeyM.threeKeyPool 6).2.key_records =
      [("k1", { key := "k1", usage_count := 2, last_reset_date := "2026-10-12",
                is_exhausted := true }),
       ("k2", { key := "k2", usage_count := 2, last_reset_date := "2026-10-12",
                is_exhausted := true }),
       ("k3", { key := "k3", usage_count := 2, last_reset_date := "2026-10-12",
                is_exhausted := true })] := by
  refine ⟨by decide, by decide, by decide⟩

/-! ## Claim C7 -/

/-- C7.  `_reset_if_new_day` depends only on the stored date string and
today's date string (no elapsed-seconds arithmetic): whenever the stored
`last_reset_date` differs from today's `YYYY-MM-DD` string the counter is
reset to 0 (and the exhausted flag cleared) and the stored date becomes
today — this happens before any pre-deduction, which `scanForKey` applies
only afterwards — while a record already stamped with today's date is
returned unchanged, so a second touch on the same date does not reset
again (the operation is idempotent). -/
theorem c7_reset_once_per_day (today : String) (r : KeyM.KeyUsageRecord) :
    (r.last_reset_date ≠ today →
      (KeyM.reset_if_new_day today r).usage_count = 0 ∧
      (KeyM.reset_if_new_day today r).last_reset_date = today ∧
      (KeyM.reset_if_new_day today r).is_exhausted = false) ∧
    (r.last_reset_date = today → KeyM.reset_if_new_day today r = r) ∧
    KeyM.reset_if_new_day today (KeyM.reset_if_new_day today r) =
      KeyM.reset_if_new_day today r := by
  unfold KeyM.reset_if_new_day
  by_cases h : r.last_reset_date = today
  · simp [h]
  · simp [h]

/-- C7 witness: a record last reset on 2026-10-11 with count 5, touched on
2026-10-12, is reset to count 0 with the new date stamped. -/
theorem c7_reset_once_per_day_witness :
    (KeyM.reset_if_new_day "2026-10-12"
        { key := "k", usage_count := 5, last_reset_date := "2026-10-11",
          is_exhausted := true }).usage_count = 0 ∧
    (KeyM.reset_if_new_day "2026-10-12"
        { key := "k", usage_count := 5, last_reset_date := "2026-10-11",
          is_exhausted := true }).last_reset_date = "2026-10-12" := by
  have h := (c7_reset_once_per_day "2026-10-12"
    { key := "k", usage_count := 5, last_reset_date := "2026-10-11",
      is_exhausted := true }).1 (by decide)
  exact ⟨h.1, h.2.1⟩

/-! ## Claim C10 -/

namespace KeyM

/-- `_reset_if_new_day` always leaves today's date stamped on the record. -/
theorem reset_if_new_day_date (today : String) (r : KeyUsageRecord) :
    (reset_if_new_day today r).last_reset_date = today := by
  unfold reset_if_new_day
  by_cases h : r.last_reset_date = today <;> simp [h]

/-- Replacing the record bound to `key` is visible to the next lookup,
provided a binding for `key` exists. -/
theorem lookupRecord_updateRecord (records : List (String × KeyUsageRecord))
    (key : String) (r₀ r : KeyUsageRecord)
    (h : lookupRecord records key = some r₀) :
    lookupRecord (updateRecord records key r) key = some r := by
  induction records with
  | nil => simp [lookupRecord, List.find?] at h
  | cons kv rest ih =>
    by_cases hk : kv.1 == key
    · simp [updateRecord, hk, lookupRecord, List.find?]
    · have h' : lookupRecord rest key = some r₀ := by
        simpa [lookupRecord, List.find?, hk] using h
      simpa [updateRecord, hk, lookupRecord, List.find?] using ih h'

/-- When the quota scan succeeds, the returned key's record in the updated
state carries today's date and a counter that was strictly below the limit
and has been incremented by one (the pre-deduction). -/
theorem scanForKey_found_deducts (today : String) (limit : Int)
    (api_keys : List String) (start_index : Nat) :
    ∀ (fuel checked : Nat) (records : List (String × KeyUsageRecord))
      (k : String) (idx : Nat) (records' : List (String × KeyUsageRecord)),
      scanForKey today limit api_keys start_index fuel checked records =
        (some (k, idx), records') →
      ∃ c : Nat, (c : Int) < limit ∧
        ∃ r : KeyUsageRecord, lookupRecord records' k = some r ∧
          r.usage_count = c + 1 ∧ r.last_reset_date = today := by
  intro fuel
  induction fuel with
  | zero => intro checked records k idx records' h; simp [scanForKey] at h
  | succ fuel ih =>
    intro checked records k idx records' h
    rw [scanForKey] at h
    split at h
    · exact ih (checked + 1) records k idx records' h
    · rename_i record hrec
      dsimp only at h
      split at h
      · rename_i hlt
        injection h with h₁ h₂
        injection h₁ with h₃
        injection h₃ with hk hidx
        subst h₂
        refine ⟨(reset_if_new_day today record).usage_count, hlt, ?_⟩
        rw [← hk]
        exact ⟨_, lookupRecord_updateRecord records _ record _ hrec, rfl,
          reset_if_new_day_date today record⟩
      · exact ih (checked + 1) _ k idx records' h

end KeyM

/-- C10.  `rotate_key` on a pool with at most one key leaves the pool
(rotation index and quota records) untouched and returns the sole key, or
`None` for an empty pool; on a larger pool it advances the rotation index
by one modulo the pool size and immediately runs `get_available_key` on the
result, so with a positive daily quota a successful rotation pre-deducts
one quota unit from the newly selected key (its stored counter was strictly
below the limit and comes back incremented by one, stamped with today's
date) even though no request has been sent with it yet. -/
theorem c10_rotate_key (today : String) (p : KeyM.ProviderKeyManager) :
    (p.api_keys.length ≤ 1 → KeyM.rotate_key today p = (p.api_keys.head?, p)) ∧
    (1 < p.api_keys.length →
      KeyM.rotate_key today p =
        KeyM.get_available_key today
          { p with current_index := (p.current_index + 1) % p.api_keys.length }) ∧
    (∀ (k : String) (p' : KeyM.ProviderKeyManager),
      1 < p.api_keys.length → 0 < p.daily_limit_per_key →
      KeyM.rotate_key today p = (some k, p') →
      ∃ c : Nat, (c : Int) < p.daily_limit_per_key ∧
        ∃ r : KeyM.KeyUsageRecord,
          KeyM.lookupRecord p'.key_records k = some r ∧
          r.usage_count = c + 1 ∧ r.last_reset_date = today) := by
  refine ⟨?_, ?_, ?_⟩
  · intro h
    unfold KeyM.rotate_key
    rw [if_pos h]
  · intro h
    unfold KeyM.rotate_key
    rw [if_neg (by omega)]
  · intro k p' hlen hq hrot
    unfold KeyM.rotate_key at hrot
    rw [if_neg (by omega)] at hrot
    unfold KeyM.get_available_key at hrot
    rw [if_neg (by
      simp only [List.isEmpty_iff]
      intro hnil
      rw [hnil] at hlen
      simp at hlen)] at hrot
    rw [if_neg (by simpa using not_le.mpr hq)] at hrot
    set p₁ := { p with
      current_index := (p.current_index + 1) % p.api_keys.length } with hp₁
    cases hscan : KeyM.scanForKey today p.daily_limit_per_key p.api_keys
        ((p.current_index + 1) % p.api_keys.length) p.api_keys.length 0
        p.key_records with
    | mk found records =>
      cases found with
      | none =>
        rw [hscan] at hrot
        exact absurd (congrArg Prod.fst hrot) (by simp)
      | some ki =>
        rw [hscan] at hrot
        obtain ⟨key, idx⟩ := ki
        have hk : key = k := by
          have := congrArg Prod.fst hrot
          simpa using this
        have hrecs : p'.key_records = records := by
          have := congrArg Prod.snd hrot
          simp at this
          rw [← this]
        rw [hrecs]
        subst hk
        exact KeyM.scanForKey_found_deducts today p.daily_limit_per_key p.api_keys
          ((p.current_index + 1) % p.api_keys.length)
          p.api_keys.length 0 p.key_records key idx records hscan

/-- C10 witness: rotating the two-key pool away from `a` selects `b` and
pre-deducts one unit from it (counter 0 → 1, stamped with today). -/
theorem c10_rotate_key_witness :
    ∃ c : Nat, (c : Int) < KeyM.twoKeyPool.daily_limit_per_key ∧
      ∃ r : KeyM.KeyUsageRecord,
        KeyM.lookupRecord
            (KeyM.rotate_key "2026-10-12" KeyM.twoKeyPool).2.key_records "b" =
          some r ∧
        r.usage_count = c + 1 ∧ r.last_reset_date = "2026-10-12" :=
  (c10_rotate_key "2026-10-12" KeyM.twoKeyPool).2.2 "b"
    (KeyM.rotate_key "2026-10-12" KeyM.twoKeyPool).2
    (by decide) (by decide) (by decide)

/-! ## Claims C5 and C6 — the retry loop on all-retryable failures -/

namespace TlApi

/-- Run of the `_make_request` loop in which every attempt up to
`max_retries` raises a retryable exception: the loop ends by re-raising the
error recorded for the last attempt, having slept
`min(2 ** (i + 2), 10)` seconds after attempt `i` for
`i = current_retry, …, max_retries - 2`. -/
theorem makeRequestGo_all_retryable (attempts : Nat → AttemptResult)
    (es : Nat → ExcInfo) (max_retries : Nat)
    (hall : ∀ i, i < max_retries → attempts i = AttemptResult.exc (es i) ∧
      is_retryable_error (classify_error (es i)) (es i).statusAttr = true) :
    ∀ (fuel current_retry : Nat) (last_error : Option APIError) (delays : List Nat),
      fuel = max_retries - current_retry → current_retry < max_retries →
      makeRequestGo attempts max_retries fuel current_retry last_error delays =
        (Except.error (recordedError (es (max_retries - 1))),
         delays ++ (List.range' current_retry (max_retries - 1 - current_retry)).map
           (fun i => min (2 ^ (i + 2)) 10)) := by
  intro fuel
  induction fuel with
  | zero =>
    intro current_retry last_error delays hfuel hlt
    omega
  | succ fuel ih =>
    intro current_retry last_error delays hfuel hlt
    rw [makeRequestGo, (hall current_retry hlt).1]
    dsimp only
    rw [if_pos (by simpa using (hall current_retry hlt).2)]
    by_cases hnext : current_retry + 1 < max_retries
    · rw [if_pos hnext]
      rw [ih (current_retry + 1) _ _ (by omega) hnext]
      have hn : max_retries - 1 - current_retry =
          (max_retries - 1 - (current_retry + 1)) + 1 := by omega
      rw [hn, List.range'_succ, List.map_cons, List.append_assoc]
      rfl
    · rw [if_neg hnext]
      have hcr : max_retries - 1 = current_retry := by omega
      have hn : max_retries - 1 - current_retry = 0 := by omega
      rw [hn, hcr]
      simp [finishLoop, recordedError, List.range']

end TlApi

/-- C5 (amended).  When every attempt fails with a retryable error and the
retry budget (`max_retries ≥ 1`, so at least one retry was attempted when
`max_retries ≥ 2`) is exhausted, `_make_request` re-raises the error it
recorded for the last attempt — message, status and classified type taken
verbatim from that attempt — rather than any distinct aggregated
"exhausted after N attempts" message (the attempt count appears only in a
log line, not in the raised error). -/
theorem c5_raises_last_recorded_error (attempts : Nat → TlApi.AttemptResult)
    (es : Nat → TlApi.ExcInfo) (max_retries : Nat)
    (hall : ∀ i, i < max_retries → attempts i = TlApi.AttemptResult.exc (es i) ∧
      TlApi.is_retryable_error (TlApi.classify_error (es i)) (es i).statusAttr = true)
    (hpos : 1 ≤ max_retries) :
    (TlApi.make_request attempts max_retries).1 =
      Except.error (TlApi.recordedError (es (max_retries - 1))) := by
  unfold TlApi.make_request
  rw [TlApi.makeRequestGo_all_retryable attempts es max_retries hall max_retries 0
    none [] (by omega) (by omega)]

/-- C5 witness: two attempts, both failing with message `boom`; the raised
error is exactly the recorded per-attempt error `boom` of classified type
`unknown`. -/
theorem c5_raises_last_recorded_error_witness :
    (TlApi.make_request
        (fun _ => TlApi.AttemptResult.exc ⟨"boom", false, false, none⟩) 2).1 =
      Except.error (TlApi.recordedError ⟨"boom", false, false, none⟩) ∧
    TlApi.recordedError ⟨"boom", false, false, none⟩ =
      ⟨"boom", none, some "unknown"⟩ := by
  have h := c5_raises_last_recorded_error
    (fun _ => TlApi.AttemptResult.exc ⟨"boom", false, false, none⟩)
    (fun _ => ⟨"boom", false, false, none⟩) 2
    (by
      intro i hi
      refine ⟨rfl, ?_⟩
      exact (by decide : TlApi.is_retryable_error
        (TlApi.classify_error ⟨"boom", false, false, none⟩) none = true))
    (by omega)
  exact ⟨h, rfl⟩

/-- C5 counterexample: after exhausting `max_retries = 2` attempts (one
retry) on the retryable error `boom`, the raised error is the raw
per-attempt error — its message is exactly `boom` — and contains no
"exhausted after N attempts" text. -/
theorem c5_counterexample :
    (TlApi.make_request
        (fun _ => TlApi.AttemptResult.exc ⟨"boom", false, false, none⟩) 2).1 =
      Except.error ⟨"boom", none, some "unknown"⟩ ∧
    strContainsSub "boom" "exhausted" = false := by
  exact ⟨rfl, by decide⟩

/-- Adjacent-pair property of `(List.range n).map f` from a property of
`f i, f (i + 1)`. -/
theorem chain_of_range_map {P : Nat → Nat → Prop} (f : Nat → Nat)
    (hP : ∀ i, P (f i) (f (i + 1))) (n : Nat) :
    List.Chain' P ((List.range n).map f) := by
  rw [List.chain'_map]
  cases n with
  | zero => simp
  | succ m => exact (List.chain'_range_succ _ m).mpr (fun i _ => hP i)

/-- C6 (amended).  In a run of the retry loop in which every attempt fails
with a retryable error, the backoff delays slept between consecutive
attempts are `min(2 ** (i + 2), 10)` seconds for `i = 0, 1, …` — i.e.
4 s, 8 s, then 10 s forever: each delay is double the previous one until
the 10-second ceiling is reached, every delay is at most 10 s, and the
sequence is non-decreasing (strictly increasing only while below the cap,
then constant at 10 s — not strictly increasing throughout). -/
theorem c6_backoff_delays (attempts : Nat → TlApi.AttemptResult)
    (es : Nat → TlApi.ExcInfo) (max_retries : Nat)
    (hall : ∀ i, i < max_retries → attempts i = TlApi.AttemptResult.exc (es i) ∧
      TlApi.is_retryable_error (TlApi.classify_error (es i)) (es i).statusAttr = true)
    (hpos : 1 ≤ max_retries) :
    (TlApi.make_request attempts max_retries).2 =
      (List.range (max_retries - 1)).map (fun i => min (2 ^ (i + 2)) 10) ∧
    List.Chain' (fun a b => a ≤ b ∧ b ≤ 10 ∧ (b < 10 → b = 2 * a))
      ((TlApi.make_request attempts max_retries).2) := by
  have hrun := TlApi.makeRequestGo_all_retryable attempts es max_retries hall
    max_retries 0 none [] (by omega) (by omega)
  have hd : (TlApi.make_request attempts max_retries).2 =
      (List.range (max_retries - 1)).map (fun i => min (2 ^ (i + 2)) 10) := by
    unfold TlApi.make_request
    rw [hrun]
    rw [List.range_eq_range']
    simp
  refine ⟨hd, ?_⟩
  rw [hd]
  refine chain_of_range_map _ (fun i => ?_) _
  refine ⟨?_, Nat.min_le_right _ _, ?_⟩
  · exact min_le_min (Nat.pow_le_pow_right (by norm_num) (by omega)) le_rfl
  · intro hb
    have hlt : 2 ^ (i + 3) < 10 := by
      by_contra hge
      push_neg at hge
      rw [Nat.min_eq_right hge] at hb
      omega
    have hi : i = 0 := by
      by_contra hi0
      have h1 : 1 ≤ i := Nat.one_le_iff_ne_zero.mpr hi0
      have h16 : (2 : Nat) ^ 4 ≤ 2 ^ (i + 3) :=
        Nat.pow_le_pow_right (by norm_num) (by omega)
      norm_num at h16
      omega
    subst hi
    decide

/-- C6 witness: five attempts all failing retryably produce the delay
sequence 4 s, 8 s, 10 s, 10 s. -/
theorem c6_backoff_delays_witness :
    (TlApi.make_request
        (fun _ => TlApi.AttemptResult.exc ⟨"boom", false, false, none⟩) 5).2 =
      [4, 8, 10, 10] := by
  have h := c6_backoff_delays
    (fun _ => TlApi.AttemptResult.exc ⟨"boom", false, false, none⟩)
    (fun _ => ⟨"boom", false, false, none⟩) 5
    (by
      intro i hi
      refine ⟨rfl, ?_⟩
      exact (by decide : TlApi.is_retryable_error
        (TlApi.classify_error ⟨"boom", false, false, none⟩) none = true))
    (by omega)
  rw [h.1]
  decide

/-- C6 counterexample: with `max_retries = 5` every attempt failing
retryably, the slept delays are 4 s, 8 s, 10 s, 10 s — capped doubling,
but not a strictly increasing sequence (the third and fourth delays are
both 10 s). -/
theorem c6_counterexample :
    (TlApi.make_request
        (fun _ => TlApi.AttemptResult.exc ⟨"boom", false, false, none⟩) 5).2 =
      [4, 8, 10, 10] ∧
    ¬ List.Chain' (· < ·)
      ((TlApi.make_request
          (fun _ => TlApi.AttemptResult.exc ⟨"boom", false, false, none⟩) 5).2) := by
  constructor
  · rfl
  · intro h
    have h2 : List.Chain' (· < ·) ([4, 8, 10, 10] : List Nat) := h
    simp [List.chain'_cons] at h2

/-! ## Claim C4 -/

namespace RateL

/-- Under `windowCfg` the list checks pass and the single wildcard rule
governs, so a check reduces to the sliding-window core with
`period = 60`, `max = 5`. -/
theorem windowCfg_step (buckets : List (String × List ℚ)) (now : ℚ) :
    check_and_consume windowCfg buckets (some "g") now =
      applyWindow true 60 5 buckets "g" now := rfl

/-- The sliding-window core admits while the pruned bucket holds fewer
than `max` timestamps, appending `now`. -/
theorem applyWindow_allow (buckets : List (String × List ℚ)) (gid : String)
    (now : ℚ)
    (h : ¬ 5 ≤ ((bucketLookup buckets gid).filter
      (fun ts => decide (now - 60 ≤ ts))).length) :
    applyWindow true 60 5 buckets gid now =
      (RLDecision.allow,
       bucketStore buckets gid
         (((bucketLookup buckets gid).filter
            (fun ts => decide (now - 60 ≤ ts))) ++ [now])) := by
  simp only [applyWindow, Bool.not_true]
  rw [if_neg (by simp), if_neg h]

/-- The sliding-window core denies once the pruned bucket holds `max`
timestamps, with the clamped truncated retry-after. -/
theorem applyWindow_deny (buckets : List (String × List ℚ)) (gid : String)
    (now : ℚ)
    (h : 5 ≤ ((bucketLookup buckets gid).filter
      (fun ts => decide (now - 60 ≤ ts))).length) :
    applyWindow true 60 5 buckets gid now =
      (RLDecision.denyRate 60 5
        (if pyIntTrunc (((bucketLookup buckets gid).filter
              (fun ts => decide (now - 60 ≤ ts))).headD 0 + 60 - now) < 0 then 0
         else pyIntTrunc (((bucketLookup buckets gid).filter
              (fun ts => decide (now - 60 ≤ ts))).headD 0 + 60 - now)),
       bucketStore buckets gid
         ((bucketLookup buckets gid).filter
            (fun ts => decide (now - 60 ≤ ts)))) := by
  simp only [applyWindow, Bool.not_true]
  rw [if_neg (by simp), if_pos h]

end RateL

/-- C4 (amended).  Under the rule `window = 60 s, max = 5`, five admission
checks for the same group within one second are all allowed, and a sixth
check within the same window is denied with a computed `retry_after` that
is at least 0 and at most 60 — not necessarily strictly greater than 0,
because the source truncates `earliest + period - now` with `int()`, which
yields 0 when the sixth check falls in the final second of the window. -/
theorem c4_window_denies_sixth (t0 t1 t2 t3 t4 t5 : ℚ)
    (h01 : t0 ≤ t1) (h12 : t1 ≤ t2) (h23 : t2 ≤ t3) (h34 : t3 ≤ t4)
    (h45 : t4 ≤ t5) (hspan : t4 ≤ t0 + 1) (hwin : t5 ≤ t0 + 60) :
    ∃ r : ℤ, 0 ≤ r ∧ r ≤ 60 ∧
      (RateL.checkTrace RateL.windowCfg (some "g") [t0, t1, t2, t3, t4, t5] []).1 =
        [RateL.RLDecision.allow, RateL.RLDecision.allow, RateL.RLDecision.allow,
         RateL.RLDecision.allow, RateL.RLDecision.allow,
         RateL.RLDecision.denyRate 60 5 r] := by
  have f2 : List.filter (fun ts => decide (t1 - 60 ≤ ts)) [t0] = [t0] := by
    rw [List.filter_eq_self]
    intro a ha
    fin_cases ha
    simp only [decide_eq_true_eq]
    linarith
  have f3 : List.filter (fun ts => decide (t2 - 60 ≤ ts)) [t0, t1] = [t0, t1] := by
    rw [List.filter_eq_self]
    intro a ha
    fin_cases ha <;> (simp only [decide_eq_true_eq]; linarith)
  have f4 : List.filter (fun ts => decide (t3 - 60 ≤ ts)) [t0, t1, t2] =
      [t0, t1, t2] := by
    rw [List.filter_eq_self]
    intro a ha
    fin_cases ha <;> (simp only [decide_eq_true_eq]; linarith)
  have f5 : List.filter (fun ts => decide (t4 - 60 ≤ ts)) [t0, t1, t2, t3] =
      [t0, t1, t2, t3] := by
    rw [List.filter_eq_self]
    intro a ha
    fin_cases ha <;> (simp only [decide_eq_true_eq]; linarith)
  have f6 : List.filter (fun ts => decide (t5 - 60 ≤ ts)) [t0, t1, t2, t3, t4] =
      [t0, t1, t2, t3, t4] := by
    rw [List.filter_eq_self]
    intro a ha
    fin_cases ha <;> (simp only [decide_eq_true_eq]; linarith)
  have hlen : ∀ (p : ℚ → Bool) (l : List ℚ), l.length ≤ 4 →
      ¬ 5 ≤ (l.filter p).length := by
    intro p l hl
    have := List.length_filter_le p l
    omega
  have s1 : RateL.check_and_consume RateL.windowCfg [] (some "g") t0 =
      (RateL.RLDecision.allow, [("g", [t0])]) := by
    rw [RateL.windowCfg_step,
      RateL.applyWindow_allow [] "g" t0 (hlen _ _ (by decide))]
    rfl
  have s2 : RateL.check_and_consume RateL.windowCfg [("g", [t0])] (some "g") t1 =
      (RateL.RLDecision.allow, [("g", [t0, t1])]) := by
    rw [RateL.windowCfg_step,
      RateL.applyWindow_allow [("g", [t0])] "g" t1 (hlen _ _ (by simp [RateL.bucketLookup]))]
    show (_, RateL.bucketStore _ _ (List.filter _ [t0] ++ [t1])) = _
    rw [f2]
    rfl
  have s3 : RateL.check_and_consume RateL.windowCfg [("g", [t0, t1])]
      (some "g") t2 = (RateL.RLDecision.allow, [("g", [t0, t1, t2])]) := by
    rw [RateL.windowCfg_step,
      RateL.applyWindow_allow [("g", [t0, t1])] "g" t2
        (hlen _ _ (by simp [RateL.bucketLookup]))]
    show (_, RateL.bucketStore _ _ (List.filter _ [t0, t1] ++ [t2])) = _
    rw [f3]
    rfl
  have s4 : RateL.check_and_consume RateL.windowCfg [("g", [t0, t1, t2])]
      (some "g") t3 = (RateL.RLDecision.allow, [("g", [t0, t1, t2, t3])]) := by
    rw [RateL.windowCfg_step,
      RateL.applyWindow_allow [("g", [t0, t1, t2])] "g" t3
        (hlen _ _ (by simp [RateL.bucketLookup]))]
    show (_, RateL.bucketStore _ _ (List.filter _ [t0, t1, t2] ++ [t3])) = _
    rw [f4]
    rfl
  have s5 : RateL.check_and_consume RateL.windowCfg [("g", [t0, t1, t2, t3])]
      (some "g") t4 = (RateL.RLDecision.allow, [("g", [t0, t1, t2, t3, t4])]) := by
    rw [RateL.windowCfg_step,
      RateL.applyWindow_allow [("g", [t0, t1, t2, t3])] "g" t4
        (hlen _ _ (by simp [RateL.bucketLookup]))]
    show (_, RateL.bucketStore _ _ (List.filter _ [t0, t1, t2, t3] ++ [t4])) = _
    rw [f5]
    rfl
  have hq0 : (0 : ℚ) ≤ t0 + 60 - t5 := by linarith
  have htr : pyIntTrunc (t0 + 60 - t5) = ⌊t0 + 60 - t5⌋ := by
    unfold pyIntTrunc
    rw [if_neg (by linarith)]
  have hr0 : 0 ≤ ⌊t0 + 60 - t5⌋ := Int.floor_nonneg.mpr hq0
  have s6 : RateL.check_and_consume RateL.windowCfg [("g", [t0, t1, t2, t3, t4])]
      (some "g") t5 =
      (RateL.RLDecision.denyRate 60 5 ⌊t0 + 60 - t5⌋,
       [("g", [t0, t1, t2, t3, t4])]) := by
    rw [RateL.windowCfg_step,
      RateL.applyWindow_deny [("g", [t0, t1, t2, t3, t4])] "g" t5
        (by show 5 ≤ (List.filter _ [t0, t1, t2, t3, t4]).length; rw [f6]; simp)]
    show (RateL.RLDecision.denyRate 60 5
        (if pyIntTrunc ((List.filter (fun ts => decide (t5 - 60 ≤ ts))
              [t0, t1, t2, t3, t4]).headD 0 + 60 - t5) < 0 then 0
         else pyIntTrunc ((List.filter (fun ts => decide (t5 - 60 ≤ ts))
              [t0, t1, t2, t3, t4]).headD 0 + 60 - t5)),
      RateL.bucketStore [("g", [t0, t1, t2, t3, t4])] "g"
        (List.filter (fun ts => decide (t5 - 60 ≤ ts)) [t0, t1, t2, t3, t4])) = _
    rw [f6]
    simp only [List.headD_cons]
    rw [htr, if_neg (not_lt.mpr hr0)]
    rfl
  refine ⟨⌊t0 + 60 - t5⌋, hr0, ?_, ?_⟩
  · have hle : (⌊t0 + 60 - t5⌋ : ℚ) ≤ 60 := le_trans (Int.floor_le _) (by linarith)
    exact_mod_cast hle
  · simp only [RateL.checkTrace, s1, s2, s3, s4, s5, s6]

/-- C4 witness: five checks at time 0 admit; a sixth at time 1 is denied
with a retry-after between 0 and 60 (it is in fact 59). -/
theorem c4_window_denies_sixth_witness :
    ∃ r : ℤ, 0 ≤ r ∧ r ≤ 60 ∧
      (RateL.checkTrace RateL.windowCfg (some "g") [0, 0, 0, 0, 0, 1] []).1 =
        [RateL.RLDecision.allow, RateL.RLDecision.allow, RateL.RLDecision.allow,
         RateL.RLDecision.allow, RateL.RLDecision.allow,
         RateL.RLDecision.denyRate 60 5 r] :=
  c4_window_denies_sixth 0 0 0 0 0 1 (by norm_num) (by norm_num) (by norm_num)
    (by norm_num) (by norm_num) (by norm_num) (by norm_num)

/-- C4 counterexample: the claim as stated requires `retry_after > 0` for
every sixth check inside the window, but five checks at time 0 followed by
a sixth at time 59.5 — still inside the 60-second window — are denied with
`retry_after = int(0 + 60 - 59.5) = 0`. -/
theorem c4_counterexample :
    (RateL.checkTrace RateL.windowCfg (some "g")
        [0, 0, 0, 0, 0, (119 : ℚ) / 2] []).1 =
      [RateL.RLDecision.allow, RateL.RLDecision.allow, RateL.RLDecision.allow,
       RateL.RLDecision.allow, RateL.RLDecision.allow,
       RateL.RLDecision.denyRate 60 5 0] := by
  have hlen : ∀ (p : ℚ → Bool) (l : List ℚ), l.length ≤ 4 →
      ¬ 5 ≤ (l.filter p).length := by
    intro p l hl
    have := List.length_filter_le p l
    omega
  have fz : ∀ l : List ℚ, (∀ a ∈ l, a = 0) →
      List.filter (fun ts => decide ((0 : ℚ) - 60 ≤ ts)) l = l := by
    intro l hl
    rw [List.filter_eq_self]
    intro a ha
    rw [hl a ha]
    simp only [decide_eq_true_eq]
    norm_num
  have f6 : List.filter (fun ts => decide ((119 : ℚ) / 2 - 60 ≤ ts))
      [0, 0, 0, 0, 0] = ([0, 0, 0, 0, 0] : List ℚ) := by
    rw [List.filter_eq_self]
    intro a ha
    fin_cases ha <;> (simp only [decide_eq_true_eq]; norm_num)
  have s1 : RateL.check_and_consume RateL.windowCfg [] (some "g") (0 : ℚ) =
      (RateL.RLDecision.allow, [("g", [(0 : ℚ)])]) := by
    rw [RateL.windowCfg_step,
      RateL.applyWindow_allow [] "g" 0 (hlen _ _ (by decide))]
    rfl
  have s2 : RateL.check_and_consume RateL.windowCfg [("g", [(0 : ℚ)])]
      (some "g") (0 : ℚ) =
      (RateL.RLDecision.allow, [("g", [(0 : ℚ), 0])]) := by
    rw [RateL.windowCfg_step,
      RateL.applyWindow_allow [("g", [(0 : ℚ)])] "g" 0
        (hlen _ _ (by simp [RateL.bucketLookup]))]
    show (_, RateL.bucketStore _ _
      (List.filter _ [(0 : ℚ)] ++ [(0 : ℚ)])) = _
    rw [fz [(0 : ℚ)] (by intro a ha; simpa using ha)]
    rfl
  have s3 : RateL.check_and_consume RateL.windowCfg [("g", [(0 : ℚ), 0])]
      (some "g") (0 : ℚ) =
      (RateL.RLDecision.allow, [("g", [(0 : ℚ), 0, 0])]) := by
    rw [RateL.windowCfg_step,
      RateL.applyWindow_allow [("g", [(0 : ℚ), 0])] "g" 0
        (hlen _ _ (by simp [RateL.bucketLookup]))]
    show (_, RateL.bucketStore _ _
      (List.filter _ [(0 : ℚ), 0] ++ [(0 : ℚ)])) = _
    rw [fz [(0 : ℚ), 0] (by intro a ha; simpa using ha)]
    rfl
  have s4 : RateL.check_and_consume RateL.windowCfg [("g", [(0 : ℚ), 0, 0])]
      (some "g") (0 : ℚ) =
      (RateL.RLDecision.allow, [("g", [(0 : ℚ), 0, 0, 0])]) := by
    rw [RateL.windowCfg_step,
      RateL.applyWindow_allow [("g", [(0 : ℚ), 0, 0])] "g" 0
        (hlen _ _ (by simp [RateL.bucketLookup]))]
    show (_, RateL.bucketStore _ _
      (List.filter _ [(0 : ℚ), 0, 0] ++ [(0 : ℚ)])) = _
    rw [fz [(0 : ℚ), 0, 0] (by intro a ha; simpa using ha)]
    rfl
  have s5 : RateL.check_and_consume RateL.windowCfg [("g", [(0 : ℚ), 0, 0, 0])]
      (some "g") (0 : ℚ) =
      (RateL.RLDecision.allow, [("g", [(0 : ℚ), 0, 0, 0, 0])]) := by
    rw [RateL.windowCfg_step,
      RateL.applyWindow_allow [("g", [(0 : ℚ), 0, 0, 0])] "g" 0
        (hlen _ _ (by simp [RateL.bucketLookup]))]
    show (_, RateL.bucketStore _ _
      (List.filter _ [(0 : ℚ), 0, 0, 0] ++ [(0 : ℚ)])) = _
    rw [fz [(0 : ℚ), 0, 0, 0] (by intro a ha; simpa using ha)]
    rfl
  have htr : pyIntTrunc ((0 : ℚ) + 60 - 119 / 2) = 0 := by
    unfold pyIntTrunc
    rw [if_neg (by norm_num)]
    rw [show (0 : ℚ) + 60 - 119 / 2 = 1 / 2 by norm_num]
    rw [Int.floor_eq_zero_iff]
    constructor <;> norm_num
  have s6 : RateL.check_and_consume RateL.windowCfg
      [("g", [(0 : ℚ), 0, 0, 0, 0])] (some "g") ((119 : ℚ) / 2) =
      (RateL.RLDecision.denyRate 60 5 0, [("g", [(0 : ℚ), 0, 0, 0, 0])]) := by
    rw [RateL.windowCfg_step,
      RateL.applyWindow_deny [("g", [(0 : ℚ), 0, 0, 0, 0])] "g" (119 / 2)
        (by show 5 ≤ (List.filter _ [(0 : ℚ), 0, 0, 0, 0]).length
            rw [f6]; simp)]
    show (RateL.RLDecision.denyRate 60 5
        (if pyIntTrunc ((List.filter (fun ts => decide ((119 : ℚ) / 2 - 60 ≤ ts))
              [0, 0, 0, 0, 0]).headD 0 + 60 - 119 / 2) < 0 then 0
         else pyIntTrunc ((List.filter (fun ts => decide ((119 : ℚ) / 2 - 60 ≤ ts))
              [0, 0, 0, 0, 0]).headD 0 + 60 - 119 / 2)),
      RateL.bucketStore [("g", [(0 : ℚ), 0, 0, 0, 0])] "g"
        (List.filter (fun ts => decide ((119 : ℚ) / 2 - 60 ≤ ts))
          [0, 0, 0, 0, 0])) = _
    rw [f6]
    simp only [List.headD_cons]
    rw [htr]
    norm_num
    rfl
  simp only [RateL.checkTrace, s1, s2, s3, s4, s5, s6]

/-! ## Claim C9 -/

/-- C9.  The registry lookup works on the normalized identifier (lower-cased,
surrounding whitespace stripped, hyphens replaced by underscores — witnessed
by the concrete lookups below, e.g. `" Volcengine "` and `"SEEDREAM"`): each
of the aliases `doubao`, `volcengine`, `ark`, `seedream` selects the Doubao
adapter, and any identifier whose normalization matches none of the
registered vendor patterns falls through to the generic OpenAI-compatible
adapter instead of failing. -/
theorem c9_registry_dispatch :
    (∀ a : Option String,
      Registry.DOUBAO_API_TYPES.contains (Registry.normalize_api_type a) = true →
      Registry.get_api_provider a = Registry.ProviderKind.doubao) ∧
    (∀ a : Option String,
      ¬ Registry.DOUBAO_API_TYPES.contains (Registry.normalize_api_type a) = true →
      ¬ (Registry.normalize_api_type a = "zai" ∨
          strStartsWith (Registry.normalize_api_type a) "zai_" = true) →
      ¬ (Registry.normalize_api_type a ∈ ["grok2api", "grok2_api"] ∨
          strStartsWith (Registry.normalize_api_type a) "grok2api_" = true) →
      ¬ (Registry.normalize_api_type a ∈
          ["google", "gemini", "googlegenai", "google_genai"]) →
      Registry.get_api_provider a = Registry.ProviderKind.openai) ∧
    Registry.get_api_provider (some " Volcengine ") =
      Registry.ProviderKind.doubao ∧
    Registry.get_api_provider (some "SEEDREAM") = Registry.ProviderKind.doubao ∧
    Registry.get_api_provider (some "ark") = Registry.ProviderKind.doubao ∧
    Registry.get_api_provider (some "doubao") = Registry.ProviderKind.doubao ∧
    Registry.get_api_provider (some "Grok2-API") =
      Registry.ProviderKind.grok2api ∧
    Registry.get_api_provider (some "my-custom-provider") =
      Registry.ProviderKind.openai ∧
    Registry.normalize_api_type (some " Volcengine ") = "volcengine" ∧
    Registry.normalize_api_type (some "Grok2-API") = "grok2_api" := by
  refine ⟨?_, ?_, rfl, rfl, rfl, rfl, rfl, rfl, rfl, rfl⟩
  · intro a h
    unfold Registry.get_api_provider
    simp only [h, if_true]
  · intro a h1 h2 h3 h4
    unfold Registry.get_api_provider
    simp only [Bool.not_eq_true] at h1
    rw [if_neg (by simpa using h1), if_neg (by simpa using h2),
      if_neg (by simpa using h3), if_neg h4]

/-- C9 witness: `"whatever_custom"` matches no registered vendor pattern and
is dispatched to the OpenAI-compatible adapter. -/
theorem c9_registry_dispatch_witness :
    Registry.get_api_provider (some "whatever_custom") =
      Registry.ProviderKind.openai :=
  c9_registry_dispatch.2.1 (some "whatever_custom")
    (by decide) (by decide) (by decide) (by decide)

/-! ## Claim C8 -/

namespace Doubao

/-- On clean `http(s)` URLs with `force_b64` off, the reference-image loop
is the identity: every URL passes through unchanged and nothing raises. -/
theorem processRefs_urls (env : ImageEnv) (l : List String)
    (h : ∀ r ∈ l, (strStartsWith r "http://" || strStartsWith r "https://") = true ∧
      strStrip r = r) :
    processRefs env false l = Except.ok l := by
  induction l with
  | nil => rfl
  | cons x xs ih =>
    have hx := h x (by simp)
    have hxs : processRefs env false xs = Except.ok xs :=
      ih (fun r hr => h r (by simp [hr]))
    rw [processRefs, hx.2]
    have hne : ¬ x.data = [] := by
      rcases Bool.or_eq_true_iff.mp hx.1 with hh | hh
      · cases x with
        | mk data =>
          cases data with
          | nil => simp [strStartsWith, charsStartWith] at hh
          | cons c cs => simp
      · cases x with
        | mk data =>
          cases data with
          | nil => simp [strStartsWith, charsStartWith] at hh
          | cons c cs => simp
    rw [if_neg (by simpa using hne)]
    unfold _process_single_image
    rw [if_neg (by simpa using hne), if_pos (by simp [hx.1])]
    rw [hxs]
    rfl

end Doubao

/-- C8.  Reference images beyond a builder's vendor cap are dropped from
the tail, never an error: the Google-native payload builder includes the
prompt part followed by exactly the transformed first 14 reference images
(the i-th inline part comes from the i-th reference, i < 14, and nothing
beyond); the OpenAI-compatible (OpenRouter) builder likewise keeps exactly
the first 6; and the Doubao builder, on clean `http(s)` URL references with
`force_b64` off, returns exactly the first 14 URLs without raising. -/
theorem c8_capped_reference_images :
    (∀ (prompt : String) (refs : List String), 14 < refs.length →
      (TlApi.prepare_google_parts prompt refs).length = 15 ∧
      ∀ i, i < 14 →
        (TlApi.prepare_google_parts prompt refs).getD (i + 1)
            (TlApi.GPart.text "") =
          TlApi.googleRefPart (refs.getD i "")) ∧
    (∀ (prompt : String) (refs : List String), 6 < refs.length →
      (TlApi.prepare_openrouter_content prompt refs).length = 7 ∧
      ∀ i, i < 6 →
        (TlApi.prepare_openrouter_content prompt refs).getD (i + 1)
            (TlApi.OrPart.text "") =
          TlApi.openrouterRefPart (refs.getD i "")) ∧
    (∀ (env : Doubao.ImageEnv) (refs : List String), 14 < refs.length →
      (∀ r ∈ refs,
        (strStartsWith r "http://" || strStartsWith r "https://") = true ∧
        strStrip r = r) →
      Doubao._process_reference_images env false refs =
        Except.ok (some (Sum.inr (refs.take 14)))) := by
  refine ⟨?_, ?_, ?_⟩
  · intro prompt refs h
    constructor
    · simp only [TlApi.prepare_google_parts, List.length_cons, List.length_map,
        List.length_take]
      omega
    · intro i hi
      have hi' : i < refs.length := by omega
      simp only [TlApi.prepare_google_parts, List.getD_eq_getElem?_getD,
        List.getElem?_cons_succ, List.getElem?_map, List.getElem?_take_of_lt hi,
        List.getElem?_eq_getElem hi', Option.map_some', Option.getD_some]
  · intro prompt refs h
    constructor
    · simp only [TlApi.prepare_openrouter_content, List.length_cons,
        List.length_map, List.length_take]
      omega
    · intro i hi
      have hi' : i < refs.length := by omega
      simp only [TlApi.prepare_openrouter_content, List.getD_eq_getElem?_getD,
        List.getElem?_cons_succ, List.getElem?_map, List.getElem?_take_of_lt hi,
        List.getElem?_eq_getElem hi', Option.map_some', Option.getD_some]
  · intro env refs hlen hurl
    have htake : ∀ r ∈ refs.take 14, (strStartsWith r "http://" ||
        strStartsWith r "https://") = true ∧ strStrip r = r :=
      fun r hr => hurl r (List.mem_of_mem_take hr)
    have hne : refs.isEmpty = false := by
      cases refs with
      | nil => simp at hlen
      | cons a l => rfl
    unfold Doubao._process_reference_images
    rw [hne]
    simp only [Bool.false_eq_true, if_false]
    rw [Doubao.processRefs_urls env (refs.take 14) htake]
    have h14 : (refs.take 14).length = 14 := by
      rw [List.length_take]
      omega
    match hshape : refs.take 14 with
    | [] => rw [hshape] at h14; simp at h14
    | [v] => rw [hshape] at h14; simp at h14
    | v1 :: v2 :: rest => rfl

/-- C8 witness: with 15 reference images the Google builder emits
1 + 14 parts, the OpenRouter builder 1 + 6 parts, and the Doubao builder
returns exactly the first 14 URLs. -/
theorem c8_capped_reference_images_witness :
    (TlApi.prepare_google_parts "p" urls15).length = 15 ∧
    (TlApi.prepare_openrouter_content "p" urls15).length = 7 ∧
    Doubao._process_reference_images
        ⟨fun _ => none, fun _ => false, fun _ => false⟩ false urls15 =
      Except.ok (some (Sum.inr (urls15.take 14))) :=
  ⟨(c8_capped_reference_images.1 "p" urls15 (by decide)).1,
   (c8_capped_reference_images.2.1 "p" urls15 (by decide)).1,
   c8_capped_reference_images.2.2
     ⟨fun _ => none, fun _ => false, fun _ => false⟩ urls15
     (by decide) (by decide)⟩

/-! ## Claim C2 -/

/-- C2 (amended).  On a response body with no `error` field and an empty,
`null` or missing `data` array (so neither an error object nor any image
data), the Doubao adapter raises a retryable `EmptyResponse` error, but the
GLM and WhatAI adapters return the empty quadruple — no images, no text,
no error — without raising: the "never return empty without raising" rule
holds only for the Doubao adapter. -/
theorem c2_empty_body_behaviour (rd : List (String × Json))
    (download saveB64 : String → Option String) (http_status : Option Nat)
    (herr : jlookup rd "error" = none)
    (hdata : jlookup rd "data" = none ∨ jlookup rd "data" = some (Json.arr []) ∨
      jlookup rd "data" = some Json.null) :
    Doubao.parse_response saveB64 (Json.obj rd) http_status =
      ParseOutcome.apiError
        { message := "豆包 API 返回了空响应，未生成图像也未返回错误信息。请稍后重试或检查请求参数。",
          status_code := http_status,
          error_type := some "EmptyResponse",
          error_code := some "NoDataReturned",
          retryable := true } ∧
    glm_parse_response download saveB64 rd = ParseOutcome.ok [] [] none none ∧
    whatai_parse_response download saveB64 rd =
      ParseOutcome.ok [] [] none none := by
  have hsection : parseDataSection download saveB64 rd =
      ParseOutcome.ok [] [] none none := by
    unfold parseDataSection
    rcases hdata with h | h | h <;> rw [h] <;> rfl
  refine ⟨?_, ?_, ?_⟩
  · unfold Doubao.parse_response
    dsimp only
    rw [herr]
    unfold Doubao.doubaoDataSection
    dsimp only
    rw [herr]
    rcases hdata with h | h | h <;> rw [h] <;> rfl
  · unfold glm_parse_response
    rw [herr, hsection]
  · unfold whatai_parse_response
    rw [herr, hsection]

/-- C2 witness: the empty JSON object body — no error, no data — makes
Doubao raise the retryable `EmptyResponse` while GLM and WhatAI return the
empty quadruple. -/
theorem c2_empty_body_behaviour_witness :
    Doubao.parse_response (fun _ => none) (Json.obj []) none =
      ParseOutcome.apiError
        { message := "豆包 API 返回了空响应，未生成图像也未返回错误信息。请稍后重试或检查请求参数。",
          status_code := none,
          error_type := some "EmptyResponse",
          error_code := some "NoDataReturned",
          retryable := true } ∧
    glm_parse_response (fun _ => none) (fun _ => none) [] =
      ParseOutcome.ok [] [] none none ∧
    whatai_parse_response (fun _ => none) (fun _ => none) [] =
      ParseOutcome.ok [] [] none none :=
  c2_empty_body_behaviour [] (fun _ => none) (fun _ => none) none rfl
    (Or.inl rfl)

/-- C2 counterexample: the claim as stated says every adapter raises a
retryable `MalformedResponse`/`EmptyResponse` on a body with neither an
error object nor image data; the GLM adapter instead returns the empty
quadruple — no images, no text and no raised error — on the body
`{"data": []}` (and the WhatAI adapter does the same). -/
theorem c2_counterexample :
    glm_parse_response (fun _ => none) (fun _ => none)
        [("data", Json.arr [])] = ParseOutcome.ok [] [] none none ∧
    whatai_parse_response (fun _ => none) (fun _ => none)
        [("data", Json.arr [])] = ParseOutcome.ok [] [] none none := by
  exact ⟨rfl, rfl⟩
